import Mathlib

/-!
# Verification of the MagicBricks scraper (`app.py`)

Shallow embedding of the scraper's pure logic:

* Python string operations (`in`, `find`, slicing, `split`, `strip`) are
  modelled on `List Char`;
* the HTML tree produced by `BeautifulSoup(html, "html.parser")` is modelled
  by the inductive `Node`; `find_all`/`find` perform the same pre-order
  descendant search with tag/class/attribute filters;
* `parse_page`, `fetch_html` and the `pandas`/`to_excel` export are embedded
  as pure functions; the two exceptions that can arise inside the listing
  loop (`AttributeError`, caught at line 75, and `TypeError`, uncaught) are
  modelled with `Except`, and the `logging` side effect as an explicit list
  of log lines.
-/

namespace MagicBricks

/-! ## Python string primitives on `List Char` -/

/-- `isPrefix sub l` : is `sub` a prefix of `l`? (Boolean, structural). -/
def isPrefix : List Char → List Char → Bool
  | [], _ => true
  | _ :: _, [] => false
  | a :: as, b :: bs => a = b && isPrefix as bs

/-- Python `s.find(sub)` : index of the first occurrence of `sub` in `s`,
`none` when absent (Python returns `-1`). -/
def firstOccur (sub : List Char) : List Char → Option Nat
  | [] => if sub.isEmpty then some 0 else none
  | c :: rest =>
    if isPrefix sub (c :: rest) then some 0
    else (firstOccur sub rest).map (· + 1)

/-- Python `sub in s` (substring containment). -/
def pyContains (sub s : List Char) : Bool :=
  (firstOccur sub s).isSome

/-- Worker for Python `s.split(sep)` (non-empty separator), with enough fuel
to consume the whole string; structural on the fuel so it reduces in the
kernel. -/
def pySplitAux (sep : List Char) : Nat → List Char → List (List Char)
  | 0, s => [s]
  | fuel + 1, s =>
    match firstOccur sep s with
    | none => [s]
    | some i => s.take i :: pySplitAux sep fuel (s.drop (i + sep.length))

/-- Python `s.split(sep)` for a non-empty separator: the fields obtained by
removing the left-to-right non-overlapping occurrences of `sep`. -/
def pySplit (sep s : List Char) : List (List Char) :=
  pySplitAux sep (s.length + 1) s

/-- Python `s.strip()` : drop whitespace from both ends. -/
def pyStrip (s : List Char) : List Char :=
  ((s.dropWhile Char.isWhitespace).reverse.dropWhile Char.isWhitespace).reverse

/-- Python `s[a:b]` for natural indices. -/
def pySlice (s : List Char) (a b : Nat) : List Char :=
  (s.drop a).take (b - a)

/-! ## The HTML tree (result of `BeautifulSoup(html, "html.parser")`) -/

/-- A parsed markup node: an element with a tag name, attributes and
children, or a text node. -/
inductive Node where
  | elem (tag : String) (attrs : List (String × String)) (children : List Node)
  | text (s : String)

/-- Attribute lookup, as bs4 `tag.get(key)` / `tag[key]` (first match). -/
def Node.attr (k : String) : Node → Option String
  | .elem _ attrs _ => attrs.lookup k
  | .text _ => none

/-- bs4 class matching: the `class` attribute, split on spaces, contains the
requested class name. -/
def hasClass (attrs : List (String × String)) (c : String) : Bool :=
  match attrs.lookup "class" with
  | some s => (pySplit [' '] s.data).contains c.data
  | none => false

/-- Selector `find_all(tag, class_=cls)` match on a single node. -/
def matchesSel (tag cls : String) : Node → Bool
  | .elem t attrs _ => t == tag && hasClass attrs cls
  | .text _ => false

/-- Selector with an extra exact attribute requirement
(`find_all(tag, class_=cls, attrs={k: v})`). -/
def matchesSelAttr (tag cls k v : String) (n : Node) : Bool :=
  matchesSel tag cls n &&
    match n.attr k with
    | some w => w == v
    | none => false

mutual
/-- bs4 `find_all(...)` on a node: matching strict descendants, in document
(pre-order) order; a matching element's own descendants are searched too. -/
def findAll (p : Node → Bool) : Node → List Node
  | .text _ => []
  | .elem _ _ cs => findAllList p cs

/-- `findAll` over a list of sibling nodes. -/
def findAllList (p : Node → Bool) : List Node → List Node
  | [] => []
  | c :: cs => (if p c then [c] else []) ++ findAll p c ++ findAllList p cs
end

/-- bs4 `find(...)`: first match of `find_all`, `None` when there is none. -/
def findFirst (p : Node → Bool) (n : Node) : Option Node :=
  (findAll p n).head?

mutual
/-- All text fragments below a node, in document order. -/
def texts : Node → List String
  | .text s => [s]
  | .elem _ _ cs => textsList cs

/-- `texts` over a list of sibling nodes. -/
def textsList : List Node → List String
  | [] => []
  | c :: cs => texts c ++ textsList cs
end

/-- bs4 `get_text(strip=True)` : each text fragment stripped, empty
fragments dropped, the rest concatenated. -/
def getTextStrip (n : Node) : String :=
  String.join (((texts n).map fun s => (pyStrip s.data).asString).filter (· ≠ ""))

/-! ## The listing extractor (`parse_page`, app.py lines 30–78) -/

/-- The two exception classes that can escape a single field extraction in
the listing loop: `AttributeError` (caught at line 75) and `TypeError`
(raised by `" in " in None` at line 42 when the `title` attribute is
missing; not caught). -/
inductive PyErr where
  | attributeError
  | typeError
deriving DecidableEq

/-- One scraped property record; the fields are listed in the order of the
dict literal at app.py lines 67–74. -/
structure PropertyRecord where
  location : String
  price : String
  property_type : String
  size : String
  bedrooms : String
  sold_by : String
deriving DecidableEq

/-- Lines 40–41: `listing.find('h2', class_='mb-srp__card--title')`, then
`property_title.get('title') if property_title else ""`. `none` models the
Python `None` that `get` yields when the element exists but carries no
`title` attribute. -/
def titleText (listing : Node) : Option String :=
  match findFirst (matchesSel "h2" "mb-srp__card--title") listing with
  | some t => t.attr "title"
  | none => some ""

/-- Line 42: `title.split(" in ")[-1] if " in " in title else "Location Not
Available"`. -/
def locationOf (s : String) : String :=
  if pyContains (" in ").data s.data then
    ((pySplit (" in ").data s.data).getLastD []).asString
  else "Location Not Available"

/-- Lines 45–49: the substring of the title between `find("BHK") + 3` and
`find("for")`, stripped, when both `"BHK"` and `"for"` occur; the sentinel
otherwise. -/
def propertyTypeOf (s : String) : String :=
  if pyContains ("BHK").data s.data && pyContains ("for").data s.data then
    (pyStrip (pySlice s.data
      (((firstOccur ("BHK").data s.data).getD 0) + 3)
      ((firstOccur ("for").data s.data).getD 0))).asString
  else "Property Type Not Available"

/-- Line 60: `title.split(' ')[0] if title else "Bedrooms Not Available"`. -/
def bedroomsOf (s : String) : String :=
  if s = "" then "Bedrooms Not Available"
  else ((pySplit [' '] s.data).headD []).asString

/-- Lines 52–53: text of `div.mb-srp__card__price--amount`, or the
sentinel when the element is absent (a bs4 `Tag` is always truthy). -/
def priceOf (listing : Node) : String :=
  match findFirst (matchesSel "div" "mb-srp__card__price--amount") listing with
  | some p => getTextStrip p
  | none => "Price Not Available"

/-- Lines 56–57: the carpet-area summary item, then its nested value
element's text. When the item exists but the nested value element does not,
`find` yields `None` and `.get_text` on it raises `AttributeError`. -/
def sizeOf (listing : Node) : Except PyErr String :=
  match findFirst (matchesSelAttr "div" "mb-srp__card__summary__list--item"
      "data-summary" "carpet-area") listing with
  | some item =>
    match findFirst (matchesSel "div" "mb-srp__card__summary--value") item with
    | some v => .ok (getTextStrip v)
    | none => .error .attributeError
  | none => .ok "Size Not Available"

/-- Lines 63–64: text of `div.mb-srp__card__ads__info--name`, or the
sentinel when absent. -/
def soldByOf (listing : Node) : String :=
  match findFirst (matchesSel "div" "mb-srp__card__ads__info--name") listing with
  | some d => getTextStrip d
  | none => "Sold By Not Available"

/-- The body of the listing loop (lines 38–74): either the record appended
at lines 67–74, or the exception that escapes. A missing `title` attribute
raises `TypeError` at line 42, before any other field is computed; the only
other possible exception is the `AttributeError` at line 57. -/
def processListing (listing : Node) : Except PyErr PropertyRecord :=
  match titleText listing with
  | none => .error .typeError
  | some s =>
    match sizeOf listing with
    | .error e => .error e
    | .ok sz =>
      .ok { location := locationOf s
            price := priceOf listing
            property_type := propertyTypeOf s
            size := sz
            bedrooms := bedroomsOf s
            sold_by := soldByOf listing }

/-- The message written by `log_error` at line 76. -/
def listingLogMsg : String := "An error occurred: Failed to parse listing"

/-- The listing loop: an `AttributeError` is caught, logged and skips just
that listing; a `TypeError` propagates, aborting the loop (records built so
far are lost, log lines already written persist). -/
def parsePageGo : List Node → Except PyErr (List PropertyRecord) × List String
  | [] => (.ok [], [])
  | l :: ls =>
    match processListing l with
    | .ok r => ((parsePageGo ls).1.map (r :: ·), (parsePageGo ls).2)
    | .error .attributeError =>
      ((parsePageGo ls).1, listingLogMsg :: (parsePageGo ls).2)
    | .error .typeError => (.error .typeError, [])

/-- `parse_page` (lines 30–78): find all `div.mb-srp__list` listing blocks
in document order and run the loop. Returns the records (or the escaping
exception) together with the log lines written. -/
def parse_page (soup : Node) : Except PyErr (List PropertyRecord) × List String :=
  parsePageGo (findAll (matchesSel "div" "mb-srp__list") soup)

/-! ## The page fetcher (`fetch_html`, app.py lines 18–27) -/

/-- The response of the one HTTP GET issued by `fetch_html`. -/
structure Response where
  status_code : Nat
  text : String

/-- `fetch_html` given the response of `requests.get`: the body text on
status 200, otherwise `None` plus one error log line carrying the status
code (lines 22–27). -/
def fetch_html (response : Response) : Option String × List String :=
  if response.status_code = 200 then (some response.text, [])
  else (none, ["An error occurred: Failed to fetch page: " ++
               toString response.status_code])

/-! ## The spreadsheet exporter (`to_excel`, app.py lines 81–86) -/

/-- A pandas `DataFrame` : named columns plus rows of cells. -/
structure DataFrame where
  columns : List String
  rows : List (List String)
deriving DecidableEq

/-- The cells of one record, in the key order of the dict literal at lines
67–74. -/
def PropertyRecord.row (r : PropertyRecord) : List String :=
  [r.location, r.price, r.property_type, r.size, r.bedrooms, r.sold_by]

/-- The column names `pd.DataFrame(properties)` derives from the dict keys,
in insertion order (lines 67–74). -/
def recordColumns : List String :=
  ["location", "price", "property_type", "size", "bedrooms", "sold_by"]

/-- `pd.DataFrame(properties)` (line 150): columns from the dicts' keys (an
empty list of dicts yields a frame with no columns), one row per dict. -/
def dataFrameOfRecords (records : List PropertyRecord) : DataFrame :=
  { columns := if records.isEmpty then [] else recordColumns
    rows := records.map PropertyRecord.row }

/-- A written workbook: sheets by name, each a list of rows. -/
structure Workbook where
  sheets : List (String × List (List String))
deriving DecidableEq

/-- `df.to_excel(writer, index=index, sheet_name=sheet_name)` (line 84):
one sheet holding the header row of column names followed by the data rows;
with `index=True` pandas would prepend the positional index as an extra
first column. -/
def to_excel (df : DataFrame) (index : Bool) (sheet_name : String) : Workbook :=
  if index then
    ⟨[(sheet_name, ("" :: df.columns) ::
        (df.rows.enum.map fun p => toString p.1 :: p.2))]⟩
  else
    ⟨[(sheet_name, df.columns :: df.rows)]⟩

/-- The export pipeline as called by the app (lines 81–86 with the line 150
frame): `to_excel(pd.DataFrame(records))` with `index=False`,
`sheet_name='Properties'`. -/
def exportRecords (records : List PropertyRecord) : Workbook :=
  to_excel (dataFrameOfRecords records) false "Properties"

/-! ## Helper lemmas on the string primitives -/

theorem isPrefix_refl (l : List Char) : isPrefix l l = true := by
  induction l with
  | nil => rfl
  | cons a as ih => simp [isPrefix, ih]

theorem isPrefix_length_le {sub l : List Char} (h : isPrefix sub l = true) :
    sub.length ≤ l.length := by
  induction sub generalizing l with
  | nil => simp
  | cons a as ih =>
    cases l with
    | nil => simp [isPrefix] at h
    | cons b bs =>
      simp only [isPrefix, Bool.and_eq_true] at h
      simpa using ih h.2

theorem isPrefix_eq_append {sub l : List Char} (h : isPrefix sub l = true) :
    l = sub ++ l.drop sub.length := by
  induction sub generalizing l with
  | nil => simp
  | cons a as ih =>
    cases l with
    | nil => simp [isPrefix] at h
    | cons b bs =>
      simp only [isPrefix, Bool.and_eq_true, decide_eq_true_eq] at h
      simpa [h.1] using ih h.2

theorem firstOccur_isPrefix {sub s : List Char} {i : Nat}
    (h : firstOccur sub s = some i) : isPrefix sub (s.drop i) = true := by
  induction s generalizing i with
  | nil =>
    cases sub with
    | nil => rfl
    | cons a as => simp [firstOccur, List.isEmpty] at h
  | cons c rest ih =>
    by_cases hp : isPrefix sub (c :: rest) = true
    · simp only [firstOccur, hp, if_true, Option.some.injEq] at h
      subst h
      simpa using hp
    · have h' : (firstOccur sub rest).map (· + 1) = some i := by
        simpa [firstOccur, hp] using h
      cases hfo : firstOccur sub rest with
      | none => rw [hfo] at h'; simp at h'
      | some j =>
        rw [hfo] at h'
        simp only [Option.map_some', Option.some.injEq] at h'
        subst h'
        simpa using ih hfo

theorem firstOccur_isSome_of_isPrefix {sub s : List Char} {i : Nat}
    (h : isPrefix sub (s.drop i) = true) : (firstOccur sub s).isSome = true := by
  induction s generalizing i with
  | nil =>
    cases sub with
    | nil => simp [firstOccur]
    | cons a as => simp [isPrefix] at h
  | cons c rest ih =>
    cases i with
    | zero =>
      simp only [List.drop_zero] at h
      simp [firstOccur, h]
    | succ j =>
      simp only [List.drop_succ_cons] at h
      have := ih h
      by_cases hp : isPrefix sub (c :: rest) = true
      · simp [firstOccur, hp]
      · simpa [firstOccur, hp, Option.isSome_map] using this

theorem isPrefix_append_right (l q : List Char) : isPrefix l (l ++ q) = true := by
  induction l with
  | nil => rfl
  | cons a as ih => simpa [isPrefix] using ih

/-- Any string of the shape `p ++ sub ++ q` contains `sub`. -/
theorem pyContains_append (p sub q : List Char) :
    pyContains sub (p ++ sub ++ q) = true := by
  unfold pyContains
  refine firstOccur_isSome_of_isPrefix (i := p.length) ?_
  have hd : (p ++ sub ++ q).drop p.length = sub ++ q := by
    rw [List.append_assoc, List.drop_left]
  rw [hd]
  exact isPrefix_append_right sub q

theorem pySplitAux_ne_nil (sep : List Char) (fuel : Nat) (s : List Char) :
    pySplitAux sep fuel s ≠ [] := by
  cases fuel with
  | zero => simp [pySplitAux]
  | succ fuel =>
    unfold pySplitAux
    cases firstOccur sep s <;> simp

/-- Python's `sep.join`, specialised to character lists. -/
def joinSep (sep : List Char) : List (List Char) → List Char
  | [] => []
  | [x] => x
  | x :: y :: xs => x ++ sep ++ joinSep sep (y :: xs)

theorem joinSep_cons (sep a : List Char) {l : List (List Char)} (h : l ≠ []) :
    joinSep sep (a :: l) = a ++ sep ++ joinSep sep l := by
  cases l with
  | nil => exact absurd rfl h
  | cons b l' => rfl

theorem getLastD_irrel {α : Type} {l : List α} (h : l ≠ []) (d d' : α) :
    l.getLastD d = l.getLastD d' := by
  cases l with
  | nil => exact absurd rfl h
  | cons a l' =>
    cases l' with
    | nil => rfl
    | cons b l'' =>
      conv_lhs => rw [List.getLastD_cons]
      conv_rhs => rw [List.getLastD_cons]

/-- Splitting and rejoining recovers the original string. -/
theorem joinSep_pySplitAux (sep : List Char) (hsep : sep ≠ []) :
    ∀ fuel s, s.length < fuel → joinSep sep (pySplitAux sep fuel s) = s := by
  intro fuel
  induction fuel with
  | zero => intro s h; omega
  | succ fuel ih =>
    intro s h
    unfold pySplitAux
    cases hfo : firstOccur sep s with
    | none => rfl
    | some i =>
      have hpre := firstOccur_isPrefix hfo
      have hle : sep.length ≤ (s.drop i).length := isPrefix_length_le hpre
      have hsl : 1 ≤ sep.length := by
        cases sep with
        | nil => exact absurd rfl hsep
        | cons a as => simp
      rw [List.length_drop] at hle
      have hrec : (s.drop (i + sep.length)).length < fuel := by
        rw [List.length_drop]; omega
      have hne := pySplitAux_ne_nil sep fuel (s.drop (i + sep.length))
      rw [joinSep_cons sep _ hne, ih _ hrec]
      have hdec : s.drop i = sep ++ s.drop (i + sep.length) := by
        have h1 := isPrefix_eq_append hpre
        rw [List.drop_drop] at h1
        simpa [Nat.add_comm] using h1
      conv_rhs => rw [← List.take_append_drop i s]
      rw [List.append_assoc, ← hdec]

/-- The final field of a split contains no further occurrence of the
separator. -/
theorem firstOccur_getLastD_pySplitAux (sep : List Char) (hsep : sep ≠ []) :
    ∀ fuel s, s.length < fuel →
      firstOccur sep ((pySplitAux sep fuel s).getLastD []) = none := by
  intro fuel
  induction fuel with
  | zero => intro s h; omega
  | succ fuel ih =>
    intro s h
    unfold pySplitAux
    cases hfo : firstOccur sep s with
    | none => simpa using hfo
    | some i =>
      have hpre := firstOccur_isPrefix hfo
      have hle : sep.length ≤ (s.drop i).length := isPrefix_length_le hpre
      have hsl : 1 ≤ sep.length := by
        cases sep with
        | nil => exact absurd rfl hsep
        | cons a as => simp
      rw [List.length_drop] at hle
      have hrec : (s.drop (i + sep.length)).length < fuel := by
        rw [List.length_drop]; omega
      have hne := pySplitAux_ne_nil sep fuel (s.drop (i + sep.length))
      have := ih _ hrec
      rw [List.getLastD_cons]
      rwa [getLastD_irrel hne _ []]

/-- A nonempty-tailed join decomposes around its final field. -/
theorem joinSep_last_decomp (sep : List Char) :
    ∀ (l : List (List Char)), l ≠ [] → ∀ a : List Char,
      ∃ p, joinSep sep (a :: l) = p ++ sep ++ (a :: l).getLastD [] := by
  intro l
  induction l with
  | nil => intro h; exact absurd rfl h
  | cons b l' ih =>
    intro _ a
    cases hl : l' with
    | nil => exact ⟨a, by simp [joinSep, List.getLastD]⟩
    | cons c l'' =>
      obtain ⟨p, hp⟩ := (hl ▸ ih) (by simp) b
      refine ⟨a ++ sep ++ p, ?_⟩
      rw [joinSep_cons sep a (by simp), hp]
      simp [List.getLastD_cons, List.append_assoc]

/-- When a single character is absent, `takeWhile` keeps everything. -/
theorem takeWhile_of_firstOccur_none {c : Char} {s : List Char}
    (h : firstOccur [c] s = none) : s.takeWhile (· != c) = s := by
  induction s with
  | nil => rfl
  | cons b rest ih =>
    by_cases hb : b = c
    · subst hb
      simp [firstOccur, isPrefix] at h
    · have h' : firstOccur [c] rest = none := by
        have : isPrefix [c] (b :: rest) = false := by
          simp only [isPrefix, Bool.and_true, decide_eq_false_iff_not]
          exact fun h => hb h.symm
        simp only [firstOccur, this, Bool.false_eq_true, if_false] at h
        cases hfo : firstOccur [c] rest with
        | none => rfl
        | some j => rw [hfo] at h; simp at h
      simp [List.takeWhile_cons, hb, ih h']

/-- `takeWhile` up to a single character stops exactly at its first
occurrence. -/
theorem takeWhile_of_firstOccur_some {c : Char} {s : List Char} {i : Nat}
    (h : firstOccur [c] s = some i) : s.takeWhile (· != c) = s.take i := by
  induction s generalizing i with
  | nil => simp [firstOccur, List.isEmpty] at h
  | cons b rest ih =>
    by_cases hb : b = c
    · subst hb
      have : isPrefix [b] (b :: rest) = true := by simp [isPrefix]
      simp only [firstOccur, this, if_true, Option.some.injEq] at h
      subst h
      simp [List.takeWhile_cons]
    · have hpf : isPrefix [c] (b :: rest) = false := by
        simp only [isPrefix, Bool.and_true, decide_eq_false_iff_not]
        exact fun h => hb h.symm
      simp only [firstOccur, hpf, Bool.false_eq_true, if_false] at h
      cases hfo : firstOccur [c] rest with
      | none => rw [hfo] at h; simp at h
      | some j =>
        rw [hfo] at h
        simp only [Option.map_some', Option.some.injEq] at h
        subst h
        simp [List.takeWhile_cons, hb, ih hfo]

/-- When the separator occurs, the string decomposes around a final
occurrence of the separator followed by the last split field, and that last
field contains no further occurrence. -/
theorem pySplit_last_decomp (sep s : List Char) (hsep : sep ≠ [])
    (hfo : (firstOccur sep s).isSome = true) :
    (∃ p, s = p ++ sep ++ (pySplit sep s).getLastD []) ∧
    firstOccur sep ((pySplit sep s).getLastD []) = none := by
  obtain ⟨i, hi⟩ := Option.isSome_iff_exists.mp hfo
  have hstep : pySplit sep s = s.take i ::
      pySplitAux sep s.length (s.drop (i + sep.length)) := by
    simp [pySplit, pySplitAux, hi]
  constructor
  · have hjoin : joinSep sep (pySplit sep s) = s :=
      joinSep_pySplitAux sep hsep (s.length + 1) s (Nat.lt_succ_self _)
    have hne := pySplitAux_ne_nil sep s.length (s.drop (i + sep.length))
    obtain ⟨p, hp⟩ := joinSep_last_decomp sep _ hne (s.take i)
    refine ⟨p, ?_⟩
    rw [hstep]
    conv_lhs => rw [← hjoin, hstep]
    exact hp
  · exact firstOccur_getLastD_pySplitAux sep hsep (s.length + 1) s
      (Nat.lt_succ_self _)

/-! ## Helper lemmas on the listing loop -/

/-- Did the loop complete without an uncaught exception? -/
def resultOk : Except PyErr (List PropertyRecord) → Bool
  | .ok _ => true
  | .error _ => false

theorem resultOk_map (f : List PropertyRecord → List PropertyRecord)
    (e : Except PyErr (List PropertyRecord)) :
    resultOk (e.map f) = resultOk e := by
  cases e <;> rfl

/-- Every record the loop returns comes from some listing of the input,
via a successful run of the loop body. -/
theorem parsePageGo_mem {ls : List Node} {rs : List PropertyRecord}
    {r : PropertyRecord} (hok : (parsePageGo ls).1 = .ok rs) (hr : r ∈ rs) :
    ∃ l ∈ ls, processListing l = .ok r := by
  induction ls generalizing rs with
  | nil =>
    simp only [parsePageGo, Except.ok.injEq] at hok
    subst hok
    simp at hr
  | cons l ls ih =>
    cases hpl : processListing l with
    | ok r0 =>
      simp only [parsePageGo, hpl] at hok
      cases hgo : (parsePageGo ls).1 with
      | error e => rw [hgo] at hok; simp [Except.map] at hok
      | ok rs' =>
        rw [hgo] at hok
        simp only [Except.map, Except.ok.injEq] at hok
        subst hok
        rcases List.mem_cons.mp hr with hr0 | hrmem
        · exact ⟨l, List.mem_cons_self l ls, by rw [hpl, hr0]⟩
        · obtain ⟨l', hl', hpl'⟩ := ih hgo hrmem
          exact ⟨l', List.mem_cons_of_mem l hl', hpl'⟩
    | error e =>
      cases e with
      | attributeError =>
        simp only [parsePageGo, hpl] at hok
        obtain ⟨l', hl', hpl'⟩ := ih hok hr
        exact ⟨l', List.mem_cons_of_mem l hl', hpl'⟩
      | typeError => simp [parsePageGo, hpl] at hok

/-- A successful run of the loop body decomposes into the six field
extractions of app.py lines 39–74. -/
theorem processListing_ok {l : Node} {r : PropertyRecord}
    (h : processListing l = .ok r) :
    ∃ s sz, titleText l = some s ∧ sizeOf l = .ok sz ∧
      r = { location := locationOf s
            price := priceOf l
            property_type := propertyTypeOf s
            size := sz
            bedrooms := bedroomsOf s
            sold_by := soldByOf l } := by
  unfold processListing at h
  cases ht : titleText l with
  | none => rw [ht] at h; exact absurd h (by simp)
  | some s =>
    rw [ht] at h
    cases hs : sizeOf l with
    | error e => rw [hs] at h; exact absurd h (by simp)
    | ok sz =>
      rw [hs] at h
      simp only [Except.ok.injEq] at h
      exact ⟨s, sz, rfl, rfl, h.symm⟩

/-! ## Definitions modelled from the spec's words (for refutations) -/

/-- Modelled from the spec's words (§4.2): location is the "substring after
the first occurrence of the literal separator `\x22 in \x22`; if absent,
sentinel". Stated for comparison against `locationOf`, which embeds the
code. -/
def specLocationFirst (s : String) : String :=
  match firstOccur (" in ").data s.data with
  | some i => (s.data.drop (i + 4)).asString
  | none => "Location Not Available"

/-- Modelled from the spec's words (§4.2): "the first whitespace-delimited
token of the title string". Stated for comparison against `bedroomsOf`,
which embeds the code. -/
def firstWhitespaceToken (s : String) : String :=
  (((s.data.dropWhile Char.isWhitespace).takeWhile
      fun c => ¬ c.isWhitespace)).asString

/-! ## Concrete sample material for witnesses and refutations -/

/-- A fully populated listing block. -/
def fullListing : Node :=
  .elem "div" [("class", "mb-srp__list")] [
    .elem "h2" [("class", "mb-srp__card--title"),
                ("title", "2 BHK Flat for Sale in Andheri West")] [],
    .elem "div" [("class", "mb-srp__card__price--amount")] [.text "₹95 Lac"],
    .elem "div" [("class", "mb-srp__card__summary__list--item"),
                 ("data-summary", "carpet-area")] [
      .elem "div" [("class", "mb-srp__card__summary--value")] [.text "650 sqft"]],
    .elem "div" [("class", "mb-srp__card__ads__info--name")] [.text "Owner"]]

/-- The record `parse_page` extracts from `fullListing`. -/
def fullRecord : PropertyRecord :=
  { location := "Andheri West", price := "₹95 Lac", property_type := "Flat",
    size := "650 sqft", bedrooms := "2", sold_by := "Owner" }

/-- A listing block whose carpet-area item lacks the nested value element:
line 57 raises `AttributeError` on it. -/
def badSizeListing : Node :=
  .elem "div" [("class", "mb-srp__list")] [
    .elem "h2" [("class", "mb-srp__card--title"),
                ("title", "3 BHK House for Rent in Pune")] [],
    .elem "div" [("class", "mb-srp__card__summary__list--item"),
                 ("data-summary", "carpet-area")] []]

/-- A listing block whose title element carries no `title` attribute:
line 42 raises `TypeError` on it. -/
def noTitleAttrListing : Node :=
  .elem "div" [("class", "mb-srp__list")] [
    .elem "h2" [("class", "mb-srp__card--title")] [],
    .elem "div" [("class", "mb-srp__card__price--amount")] [.text "₹60 Lac"]]

/-- A listing block with no title element at all. -/
def noTitleElemListing : Node :=
  .elem "div" [("class", "mb-srp__list")] [
    .elem "div" [("class", "mb-srp__card__price--amount")] [.text "₹75 Lac"],
    .elem "div" [("class", "mb-srp__card__ads__info--name")] [.text "Agent"]]

/-- A listing block with a title but no price element. -/
def noPriceListing : Node :=
  .elem "div" [("class", "mb-srp__list")] [
    .elem "h2" [("class", "mb-srp__card--title"),
                ("title", "2 BHK Flat for Sale in Andheri West")] [],
    .elem "div" [("class", "mb-srp__card__ads__info--name")] [.text "Owner"]]

/-- A page with no listing-container element. -/
def emptyPage : Node :=
  .elem "html" [] [.elem "body" [] [.elem "div" [("class", "other")] [.text "x"]]]

/-- A page holding one complete listing. -/
def onePage : Node := .elem "html" [] [.elem "body" [] [fullListing]]

/-- A page where a complete listing is followed by one whose title element
lacks the `title` attribute. -/
def titleAttrPage : Node :=
  .elem "html" [] [.elem "body" [] [fullListing, noTitleAttrListing]]

/-! ## The claims -/

/-- C1, refutation: on the title `"2 BHK Flat for Sale in Andheri West"`
the code extracts `bedrooms = "2"` and `location = "Andheri West"` as
claimed, but the slice between `find("BHK") + 3` and `find("for")` is
`" Flat "`, which strips to `"Flat"`, not the claimed `"Flat Sale"`. -/
theorem c1_sample_title_refuted :
    bedroomsOf "2 BHK Flat for Sale in Andheri West" = "2" ∧
    locationOf "2 BHK Flat for Sale in Andheri West" = "Andheri West" ∧
    propertyTypeOf "2 BHK Flat for Sale in Andheri West" ≠ "Flat Sale" := by
  refine ⟨rfl, rfl, ?_⟩
  decide

/-- C1, amended: for the title string `"2 BHK Flat for Sale in Andheri
West"`, extraction yields `bedrooms = "2"`, `property_type = "Flat"` (the
substring between `"BHK"`+3 and `"for"`, trimmed) and
`location = "Andheri West"`. -/
theorem c1_sample_title :
    bedroomsOf "2 BHK Flat for Sale in Andheri West" = "2" ∧
    propertyTypeOf "2 BHK Flat for Sale in Andheri West" = "Flat" ∧
    locationOf "2 BHK Flat for Sale in Andheri West" = "Andheri West" :=
  ⟨rfl, rfl, rfl⟩

/-- C2, refutation: the exported sheet's header row lists the columns in
the dict-literal order of app.py lines 67–74 — `location, price,
property_type, size, bedrooms, sold_by` — which is not the §3 field order
`location, property_type, price, size, bedrooms, sold_by`. -/
theorem c2_column_order_refuted :
    exportRecords [fullRecord] =
      ⟨[("Properties",
         [["location", "price", "property_type", "size", "bedrooms", "sold_by"],
          ["Andheri West", "₹95 Lac", "Flat", "650 sqft", "2", "Owner"]])]⟩ ∧
    (["location", "price", "property_type", "size", "bedrooms", "sold_by"]
      : List String) ≠
      ["location", "property_type", "price", "size", "bedrooms", "sold_by"] := by
  refine ⟨rfl, ?_⟩
  decide

/-- C2, amended: for every nonempty record sequence, the exported
spreadsheet has a single sheet named "Properties", a header row of the six
column names in the dict order of app.py lines 67–74 (`location, price,
property_type, size, bedrooms, sold_by`), one row per record in order, and
no index column. (For the empty sequence, `pd.DataFrame([])` has no
columns at all.) -/
theorem c2_export_shape (records : List PropertyRecord) (h : records ≠ []) :
    exportRecords records =
      ⟨[("Properties", recordColumns :: records.map PropertyRecord.row)]⟩ := by
  cases records with
  | nil => exact absurd rfl h
  | cons r rs => rfl

/-- Witness for `c2_export_shape` at a one-record sequence. -/
theorem c2_export_shape_witness :
    exportRecords [fullRecord] =
      ⟨[("Properties", recordColumns :: [fullRecord].map PropertyRecord.row)]⟩ :=
  c2_export_shape [fullRecord] (by decide)

/-- C3, refutation: on the title `"a in b in c"` the code takes the
substring after the *last* occurrence of `" in "` (`split(" in ")[-1]`),
yielding `"c"`, while the spec's "substring after the first occurrence"
rule yields `"b in c"`. -/
theorem c3_first_occurrence_refuted :
    locationOf "a in b in c" = "c" ∧
    specLocationFirst "a in b in c" = "b in c" ∧
    ("c" : String) ≠ "b in c" := by
  refine ⟨rfl, rfl, ?_⟩
  decide

/-- C3, amended: for every title string, if `" in "` does not occur the
extracted location is the sentinel `"Location Not Available"`; if it
occurs, the extracted location is the suffix of the title preceded by a
final occurrence of `" in "` and containing no further `" in "` — the last
field of Python's left-to-right split on `" in "` (which is the substring
after the first occurrence only when `" in "` occurs once). -/
theorem c3_location_after_final_separator (s : String) :
    (pyContains (" in ").data s.data = false →
      locationOf s = "Location Not Available") ∧
    (pyContains (" in ").data s.data = true →
      ∃ p, s.data = p ++ (" in ").data ++ (locationOf s).data ∧
        pyContains (" in ").data (locationOf s).data = false) := by
  constructor
  · intro h
    unfold locationOf
    rw [if_neg]
    simp [h]
  · intro h
    have hloc : locationOf s =
        ((pySplit (" in ").data s.data).getLastD []).asString := by
      unfold locationOf
      rw [if_pos h]
    have hdata : (locationOf s).data =
        (pySplit (" in ").data s.data).getLastD [] := by
      rw [hloc]
      exact rfl
    have hsep : (" in ").data ≠ ([] : List Char) := by decide
    obtain ⟨⟨p, hp⟩, hnone⟩ := pySplit_last_decomp (" in ").data s.data hsep h
    refine ⟨p, ?_, ?_⟩
    · rw [hdata]
      exact hp
    · rw [pyContains, hdata, hnone]
      rfl

/-- Witness for `c3_location_after_final_separator` at `"a in b in c"`. -/
theorem c3_location_after_final_separator_witness :
    ∃ p, ("a in b in c").data =
        p ++ (" in ").data ++ (locationOf "a in b in c").data ∧
      pyContains (" in ").data (locationOf "a in b in c").data = false :=
  (c3_location_after_final_separator "a in b in c").2 rfl

/-- C4, refutation: on the title `" 2 BHK"` (leading space) the code's
`split(' ')[0]` yields the empty string, while the first
whitespace-delimited token is `"2"`. -/
theorem c4_first_token_refuted :
    bedroomsOf " 2 BHK" = "" ∧
    firstWhitespaceToken " 2 BHK" = "2" ∧
    ("" : String) ≠ "2" := by
  refine ⟨rfl, rfl, ?_⟩
  decide

/-- C4, amended: for every title string, the extracted bedrooms field is
the prefix of the title before the first space character (the first field
of Python's `split(' ')`, splitting on the single space character rather
than on general whitespace runs), and it equals the sentinel
`"Bedrooms Not Available"` exactly when the title is empty. -/
theorem c4_bedrooms_before_first_space (s : String) :
    bedroomsOf s = (if s = "" then "Bedrooms Not Available"
      else (s.data.takeWhile (· != ' ')).asString) ∧
    (bedroomsOf s = "Bedrooms Not Available" ↔ s = "") := by
  have heq : bedroomsOf s = (if s = "" then "Bedrooms Not Available"
      else (s.data.takeWhile (· != ' ')).asString) := by
    by_cases h : s = ""
    · simp [bedroomsOf, h]
    · rw [bedroomsOf, if_neg h, if_neg h]
      congr 1
      unfold pySplit
      cases hfo : firstOccur [' '] s.data with
      | none => simp [pySplitAux, hfo, takeWhile_of_firstOccur_none hfo]
      | some i => simp [pySplitAux, hfo, takeWhile_of_firstOccur_some hfo]
  refine ⟨heq, ?_, fun h => by simp [bedroomsOf, h]⟩
  intro hb
  by_contra hne
  rw [heq, if_neg hne] at hb
  have hlist : s.data.takeWhile (· != ' ') = "Bedrooms Not Available".data :=
    List.asString_inj.mp hb
  have hmem : (' ' : Char) ∈ s.data.takeWhile (· != ' ') := by
    rw [hlist]
    decide
  have := List.mem_takeWhile_imp hmem
  simp at this

/-- C5: a listing whose processing raises `AttributeError` (an expected
element absent where the code assumes presence) is caught individually at
app.py line 75: that one listing is dropped from the output, every other
listing — before and after it — is still processed, and (when reached) the
failure is logged; such a failure never aborts the loop. -/
theorem c5_attribute_error_isolated (pre post : List Node) (l : Node)
    (h : processListing l = .error .attributeError) :
    (parsePageGo (pre ++ l :: post)).1 = (parsePageGo (pre ++ post)).1 ∧
    (resultOk (parsePageGo pre).1 = true →
      (parsePageGo (pre ++ l :: post)).2 =
        (parsePageGo pre).2 ++ listingLogMsg :: (parsePageGo post).2) := by
  induction pre with
  | nil =>
    constructor
    · simp only [List.nil_append, parsePageGo, h]
    · intro _
      simp only [List.nil_append, parsePageGo, h]
  | cons p pre ih =>
    cases hp : processListing p with
    | ok r =>
      constructor
      · simp only [List.cons_append, parsePageGo, hp]
        exact congrArg _ ih.1
      · intro hok
        have hok' : resultOk (parsePageGo pre).1 = true := by
          simpa [parsePageGo, hp, resultOk_map] using hok
        simp only [List.cons_append, parsePageGo, hp]
        exact ih.2 hok'
    | error e =>
      cases e with
      | attributeError =>
        constructor
        · simp only [List.cons_append, parsePageGo, hp]
          exact ih.1
        · intro hok
          have hok' : resultOk (parsePageGo pre).1 = true := by
            simpa [parsePageGo, hp] using hok
          simp only [List.cons_append, parsePageGo, hp]
          exact congrArg _ (ih.2 hok')
      | typeError =>
        constructor
        · simp only [List.cons_append, parsePageGo, hp]
        · intro hok
          exfalso
          simp [parsePageGo, hp, resultOk] at hok

/-- Witness for `c5_attribute_error_isolated`: a size-broken listing
followed by a complete one. -/
theorem c5_attribute_error_isolated_witness :
    (parsePageGo ([] ++ badSizeListing :: [fullListing])).1 =
      (parsePageGo ([] ++ [fullListing])).1 ∧
    (resultOk (parsePageGo []).1 = true →
      (parsePageGo ([] ++ badSizeListing :: [fullListing])).2 =
        (parsePageGo []).2 ++ listingLogMsg :: (parsePageGo [fullListing]).2) :=
  c5_attribute_error_isolated [] [fullListing] badSizeListing rfl

/-- C6: `fetch_html` returns the full response body on HTTP status 200;
for any other status it returns `None` (no exception) and writes one error
log line containing the status code. -/
theorem c6_fetch_contract (response : Response) :
    (response.status_code = 200 → fetch_html response = (some response.text, [])) ∧
    (response.status_code ≠ 200 →
      (fetch_html response).1 = none ∧
      ∃ entry ∈ (fetch_html response).2,
        pyContains (toString response.status_code).data entry.data = true) := by
  constructor
  · intro h
    simp [fetch_html, h]
  · intro h
    refine ⟨by simp [fetch_html, h], ?_⟩
    refine ⟨"An error occurred: Failed to fetch page: " ++
      toString response.status_code, by simp [fetch_html, h], ?_⟩
    have hdata : ("An error occurred: Failed to fetch page: " ++
        toString response.status_code).data =
        ("An error occurred: Failed to fetch page: ").data ++
          (toString response.status_code).data ++ [] := by
      simp
    rw [hdata]
    exact pyContains_append _ _ _

/-- Witness for `c6_fetch_contract` at a 404 response. -/
theorem c6_fetch_contract_witness :
    (fetch_html ⟨404, "body"⟩).1 = none ∧
    ∃ entry ∈ (fetch_html ⟨404, "body"⟩).2,
      pyContains (toString (Response.mk 404 "body").status_code).data
        entry.data = true :=
  (c6_fetch_contract ⟨404, "body"⟩).2 (by decide)

/-- C7: markup containing zero elements matching the listing-container
signature (`div.mb-srp__list`) makes `parse_page` return an empty record
list (and no log lines) — an empty sequence, not a failure. -/
theorem c7_zero_listing_blocks (html : Node)
    (h : findAll (matchesSel "div" "mb-srp__list") html = []) :
    parse_page html = (.ok [], []) := by
  unfold parse_page
  rw [h]
  rfl

/-- Witness for `c7_zero_listing_blocks` at a page with no listing
container. -/
theorem c7_zero_listing_blocks_witness : parse_page emptyPage = (.ok [], []) :=
  c7_zero_listing_blocks emptyPage rfl

/-- C8: a listing block whose price element is missing still yields a
record, with `price` equal to the sentinel `"Price Not Available"` and the
other five fields extracted as usual. -/
theorem c8_missing_price (listing : Node) (s sz : String)
    (hp : findFirst (matchesSel "div" "mb-srp__card__price--amount") listing
      = none)
    (ht : titleText listing = some s)
    (hs : sizeOf listing = .ok sz) :
    processListing listing = .ok
      { location := locationOf s
        price := "Price Not Available"
        property_type := propertyTypeOf s
        size := sz
        bedrooms := bedroomsOf s
        sold_by := soldByOf listing } := by
  unfold processListing
  rw [ht, hs]
  unfold priceOf
  rw [hp]

/-- Witness for `c8_missing_price` at a listing with a title but no price
element. -/
theorem c8_missing_price_witness :
    processListing noPriceListing = .ok
      { location := locationOf "2 BHK Flat for Sale in Andheri West"
        price := "Price Not Available"
        property_type := propertyTypeOf "2 BHK Flat for Sale in Andheri West"
        size := "Size Not Available"
        bedrooms := bedroomsOf "2 BHK Flat for Sale in Andheri West"
        sold_by := soldByOf noPriceListing } :=
  c8_missing_price noPriceListing "2 BHK Flat for Sale in Andheri West"
    "Size Not Available" rfl rfl rfl

/-- C9: every record `parse_page` returns comes from one of the page's
listing blocks with all six fields populated by the corresponding total
field extraction (a real extracted value or that field's sentinel) — no
partial records, no missing fields. -/
theorem c9_all_fields_populated (html : Node) (rs : List PropertyRecord)
    (r : PropertyRecord) (hok : (parse_page html).1 = .ok rs) (hr : r ∈ rs) :
    ∃ l ∈ findAll (matchesSel "div" "mb-srp__list") html, ∃ s sz,
      titleText l = some s ∧ sizeOf l = .ok sz ∧
      r = { location := locationOf s
            price := priceOf l
            property_type := propertyTypeOf s
            size := sz
            bedrooms := bedroomsOf s
            sold_by := soldByOf l } := by
  obtain ⟨l, hl, hpl⟩ := parsePageGo_mem hok hr
  obtain ⟨s, sz, ht, hs, hrec⟩ := processListing_ok hpl
  exact ⟨l, hl, s, sz, ht, hs, hrec⟩

/-- Witness for `c9_all_fields_populated` at a one-listing page. -/
theorem c9_all_fields_populated_witness :
    ∃ l ∈ findAll (matchesSel "div" "mb-srp__list") onePage, ∃ s sz,
      titleText l = some s ∧ sizeOf l = .ok sz ∧
      fullRecord = { location := locationOf s
                     price := priceOf l
                     property_type := propertyTypeOf s
                     size := sz
                     bedrooms := bedroomsOf s
                     sold_by := soldByOf l } :=
  c9_all_fields_populated onePage [fullRecord] fullRecord rfl
    (List.Mem.head [])

/-- C10, evaluation at the failing input: when the title element carries no
`title` attribute, `get('title')` yields `None` and line 42 raises
`TypeError` — which the `except AttributeError` at line 75 does not catch,
so `parse_page` aborts as a whole (even an earlier complete listing's
record is lost). When instead the title element is entirely absent, the
record is produced with the three title-derived sentinels and the other
fields extracted as usual, as the claim describes. -/
theorem c10_missing_title_attribute_aborts :
    processListing noTitleAttrListing = .error .typeError ∧
    (parse_page titleAttrPage).1 = .error .typeError ∧
    processListing noTitleElemListing = .ok
      { location := "Location Not Available"
        price := "₹75 Lac"
        property_type := "Property Type Not Available"
        size := "Size Not Available"
        bedrooms := "Bedrooms Not Available"
        sold_by := "Agent" } :=
  ⟨rfl, rfl, rfl⟩

end MagicBricks
